import Mathlib

/-!
Verification of the DataClassificationTool persistence layer and its
collaborators, shallowly embedded in Lean 4.

The embedding mirrors the TypeScript source:
* JavaScript string operations (`toLowerCase`, `includes`, `startsWith`,
  `trim`, `slice`, truthiness of strings) are modelled over `List Char`
  with ASCII case mapping.
* The database is modelled as an explicit list of rows; each dialect
  adapter is a pure function from the current table (plus the inputs the
  TypeScript function receives, with `crypto.randomUUID()` supplied as a
  parameter) to the new table and the result envelope.
* The AI classification flow is modelled with the HTTP response and the
  `JSON.parse` primitive as parameters.
-/

namespace DataClassification

/-! ## JavaScript string primitives -/

/-- ASCII lower-casing of one character, the embedding of what
`String.prototype.toLowerCase` does on the basic latin range. -/
def charToLower (c : Char) : Char :=
  if 65 ≤ c.toNat ∧ c.toNat ≤ 90 then Char.ofNat (c.toNat + 32) else c

/-- Embedding of `url.toLowerCase()`. -/
def jsToLower (s : String) : String := String.mk (s.data.map charToLower)

/-- Boolean prefix test on character lists. -/
def listIsPrefixOf : List Char → List Char → Bool
  | [], _ => true
  | _ :: _, [] => false
  | a :: as, b :: bs => a == b && listIsPrefixOf as bs

/-- Does `sub` occur as a contiguous sublist of the second argument? -/
def listContainsSub (sub : List Char) : List Char → Bool
  | [] => listIsPrefixOf sub []
  | l@(_ :: rest) => listIsPrefixOf sub l || listContainsSub sub rest

/-- Embedding of `s.includes(sub)`. -/
def jsIncludes (s sub : String) : Bool := listContainsSub sub.data s.data

/-- Embedding of `s.startsWith(p)`. -/
def startsWithB (s p : String) : Bool := listIsPrefixOf p.data s.data

/-- Embedding of `s.trim()` (ASCII whitespace). -/
def jsTrim (s : String) : String :=
  String.mk (((s.data.dropWhile Char.isWhitespace).reverse.dropWhile
    Char.isWhitespace).reverse)

/-- Embedding of `s.slice(start, -negEnd)` for a non-negative start and a
negative end index, the only shape the source uses. -/
def jsSliceNegEnd (s : String) (start negEnd : Nat) : String :=
  String.mk ((s.data.take (s.data.length - negEnd)).drop start)

/-- Embedding of `a || b` on two strings (a string is falsy iff empty). -/
def jsOrStr (a b : String) : String := if a = "" then b else a

/-- Embedding of `a || b` where `a` may be `undefined` (`none`). -/
def jsOrElse (v : Option String) (d : String) : String :=
  match v with
  | none => d
  | some s => if s = "" then d else s

/-- First truthy value of a chain `a || b || c` of possibly-undefined
strings; `none` when every link is `undefined` or `""`. -/
def firstTruthy : List (Option String) → Option String
  | [] => none
  | none :: rest => firstTruthy rest
  | some s :: rest => if s = "" then firstTruthy rest else some s

/-! ## Database type detection (src/app/actions/dbActions.ts and the
duplicated copy in the page component) -/

/-- The `DatabaseType` union from `src/lib/types.ts`. -/
inductive DatabaseType where
  | postgres
  | oracle
  | hive
  | unknown
  deriving DecidableEq, Repr

/-- String value of a `DatabaseType` tag, as interpolated by `${dbType}`. -/
def dbTypeName : DatabaseType → String
  | .postgres => "postgres"
  | .oracle => "oracle"
  | .hive => "hive"
  | .unknown => "unknown"

/-- The server-side `detectDbType` exported from `dbActions`.  Note the
source tests `lowerUrl.includes("SID")` and
`lowerUrl.includes("SERVICE_NAME")` with upper-case literals against the
lower-cased URL. -/
def detectDbType (url : String) : DatabaseType :=
  if url = "" then .unknown
  else
    let lowerUrl := jsToLower url
    if startsWithB lowerUrl "postgres" then .postgres
    else if startsWithB lowerUrl "oracle:" ||
        (jsIncludes lowerUrl "@" &&
          (jsIncludes lowerUrl "SID" || jsIncludes lowerUrl "SERVICE_NAME")) then
      .oracle
    else if startsWithB lowerUrl "jdbc:hive2" then .hive
    else .unknown

/-- The client-side copy of `detectDbType` in the page component, which
tests the lower-case literals `"sid"` and `"service_name"`. -/
def detectDbTypeClient (url : String) : DatabaseType :=
  if url = "" then .unknown
  else
    let lowerUrl := jsToLower url
    if startsWithB lowerUrl "postgres" then .postgres
    else if startsWithB lowerUrl "oracle:" ||
        (jsIncludes lowerUrl "@" &&
          (jsIncludes lowerUrl "sid" || jsIncludes lowerUrl "service_name")) then
      .oracle
    else if startsWithB lowerUrl "jdbc:hive2" then .hive
    else .unknown

/-! ## Column record model (src/lib/types.ts) -/

/-- The `ColumnData` interface.  `ndmoClassification` and `reason_ndmo`
are optional in the TypeScript type and are modelled as `Option`. -/
structure ColumnData where
  id : String
  columnName : String
  description : String
  ndmoClassification : Option String
  reason_ndmo : Option String
  pii : Bool
  phi : Bool
  pfi : Bool
  psi : Bool
  pci : Bool
  deriving DecidableEq, Repr

/-- Input to the insert-one operations:
`Omit<ColumnData, "id"> & { id?: string }`. -/
structure ColumnInput where
  id : Option String
  columnName : String
  description : String
  ndmoClassification : Option String
  reason_ndmo : Option String
  pii : Bool
  phi : Bool
  pfi : Bool
  psi : Bool
  pci : Bool
  deriving DecidableEq, Repr

/-- The four allowed classification values (`ndmoClassificationOptions`). -/
def ndmoClassificationOptions : List String :=
  ["Top Secret", "Secret", "Restricted", "Public"]

/-- Result envelope for operations that carry no data payload. -/
structure ActionResult where
  success : Bool
  message : Option String := none
  deriving DecidableEq, Repr

/-- Result envelope carrying a list payload (fetch operations). -/
structure FetchResult (α : Type) where
  success : Bool
  message : Option String := none
  data : List α := []
  deriving DecidableEq, Repr

/-- Result envelope carrying an optional single payload (insert/update). -/
structure SingleResult (α : Type) where
  success : Bool
  message : Option String := none
  data : Option α := none
  deriving DecidableEq, Repr

/-! ## Table rows

The live tables are modelled as lists of rows.  Postgres stores the five
sensitivity flags as native booleans, Oracle as `NUMBER(1)` codes; both
tables declare `id` as the primary key, which is the one uniqueness
constraint the adapters' error handling distinguishes. -/

/-- One row of the Postgres `column_classifications` table.  The
`description`, `ndmo_classification` and `reason_ndmo` columns are
nullable. -/
structure PgRow where
  id : String
  column_name : String
  description : Option String
  ndmo_classification : Option String
  reason_ndmo : Option String
  pii : Bool
  phi : Bool
  pfi : Bool
  psi : Bool
  pci : Bool
  deriving DecidableEq, Repr

/-- One row of the Oracle `COLUMN_CLASSIFICATIONS` table; the flag
columns are `NUMBER(1)` values. -/
structure OraRow where
  id : String
  column_name : String
  description : Option String
  ndmo_classification : Option String
  reason_ndmo : Option String
  pii : Nat
  phi : Nat
  pfi : Nat
  psi : Nat
  pci : Nat
  deriving DecidableEq, Repr

/-- `const columnId = column.id || crypto.randomUUID();` for an insert
input whose `id` may be absent. -/
def columnIdOf (i : Option String) (uuid : String) : String :=
  match i with
  | none => uuid
  | some s => if s = "" then uuid else s

/-! ## Persistence router (`dbActions` logic functions)

Each `...Logic` function detects the dialect of the URL and either
delegates to the matching adapter or returns the default-branch failure
without touching any connection.  The dispatch itself is embedded; the
delegated call is represented symbolically. -/

/-- Outcome of the routing switch: delegate to one of the two adapters
(which is where database I/O happens) or return the default-branch
result without any I/O. -/
inductive Routed where
  | postgresAdapter
  | oracleAdapter
  | rejected (r : ActionResult)
  deriving DecidableEq, Repr

/-- The default-branch failure envelope of the router switches. -/
def notSupported (msg : String) : ActionResult :=
  { success := false, message := some msg }

/-- Routing part of `fetchColumnDataLogic`. -/
def fetchColumnDataLogic (dbUrl : String) : Routed :=
  match detectDbType dbUrl with
  | .postgres => .postgresAdapter
  | .oracle => .oracleAdapter
  | t => .rejected (notSupported ("Fetching data is not supported for database type: " ++ dbTypeName t ++ "."))

/-- Routing part of `insertColumnDataLogic`. -/
def insertColumnDataLogic (dbUrl : String) (_column : ColumnInput) : Routed :=
  match detectDbType dbUrl with
  | .postgres => .postgresAdapter
  | .oracle => .oracleAdapter
  | t => .rejected (notSupported ("Inserting data is not supported for database type: " ++ dbTypeName t ++ "."))

/-- Routing part of `batchInsertColumnDataLogic`. -/
def batchInsertColumnDataLogic (dbUrl : String) (_columns : List ColumnData) :
    Routed :=
  match detectDbType dbUrl with
  | .postgres => .postgresAdapter
  | .oracle => .oracleAdapter
  | t => .rejected (notSupported ("Batch operations are not supported for database type: " ++ dbTypeName t ++ "."))

/-- Routing part of `updateColumnDataLogic`. -/
def updateColumnDataLogic (dbUrl : String) (_column : ColumnData) : Routed :=
  match detectDbType dbUrl with
  | .postgres => .postgresAdapter
  | .oracle => .oracleAdapter
  | t => .rejected (notSupported ("Updating data is not supported for database type: " ++ dbTypeName t ++ "."))

/-- Routing part of `deleteColumnDataLogic`. -/
def deleteColumnDataLogic (dbUrl : String) (_id : String) : Routed :=
  match detectDbType dbUrl with
  | .postgres => .postgresAdapter
  | .oracle => .oracleAdapter
  | t => .rejected (notSupported ("Deleting data is not supported for database type: " ++ dbTypeName t ++ "."))

/-- Routing part of `deleteAllColumnsLogic`. -/
def deleteAllColumnsLogic (dbUrl : String) : Routed :=
  match detectDbType dbUrl with
  | .postgres => .postgresAdapter
  | .oracle => .oracleAdapter
  | t => .rejected (notSupported ("Deleting all data is not supported for database type: " ++ dbTypeName t ++ "."))

/-! ## Postgres adapter (src/app/actions/dbActions.ts) -/

/-- Row comparison used to model `ORDER BY column_name ASC`. -/
def rowLePg (a b : PgRow) : Prop := a.column_name ≤ b.column_name

instance : DecidableRel rowLePg := fun a b =>
  inferInstanceAs (Decidable (a.column_name ≤ b.column_name))

instance : IsTotal PgRow rowLePg :=
  ⟨fun a b => le_total a.column_name b.column_name⟩

instance : IsTrans PgRow rowLePg :=
  ⟨fun _ _ _ h1 h2 => le_trans h1 h2⟩

/-- The row mapping in `fetchPostgresColumns` (`row.description || ""`
replaces a null or empty description). -/
def pgMapRowToColumnData (r : PgRow) : ColumnData :=
  { id := r.id
    columnName := r.column_name
    description := jsOrElse r.description ""
    ndmoClassification := r.ndmo_classification
    reason_ndmo := r.reason_ndmo
    pii := r.pii
    phi := r.phi
    pfi := r.pfi
    psi := r.psi
    pci := r.pci }

/-- `fetchPostgresColumns`: select all rows ordered by `column_name`
ascending and map them to `ColumnData`. -/
def fetchPostgresColumns (db : List PgRow) : FetchResult ColumnData :=
  { success := true
    data := (List.insertionSort rowLePg db).map pgMapRowToColumnData }

/-- The row bound by `insertPostgresColumn` (its `VALUES` list, with
`columnId = column.id || crypto.randomUUID()`). -/
def pgRowOfInput (uuid : String) (c : ColumnInput) : PgRow :=
  { id := columnIdOf c.id uuid
    column_name := c.columnName
    description := some c.description
    ndmo_classification := c.ndmoClassification
    reason_ndmo := c.reason_ndmo
    pii := c.pii
    phi := c.phi
    pfi := c.pfi
    psi := c.psi
    pci := c.pci }

/-- One `INSERT` against the primary-key constraint on `id`: a duplicate
key aborts the statement, otherwise the row is appended. -/
def pgInsertRow (db : List PgRow) (r : PgRow) : Option (List PgRow) :=
  if db.any (fun x => x.id == r.id) then none else some (db ++ [r])

/-- `insertPostgresColumn`: insert one row, reporting a duplicate key as
the distinguished "already exists" message. -/
def insertPostgresColumn (db : List PgRow) (uuid : String) (c : ColumnInput) :
    List PgRow × SingleResult ColumnData :=
  let row := pgRowOfInput uuid c
  match pgInsertRow db row with
  | some db2 =>
      (db2, { success := true
              message := some "Column inserted successfully."
              data := some (pgMapRowToColumnData row) })
  | none =>
      (db, { success := false
             message := some ("Column \"" ++ c.columnName ++ "\" already exists.") })

/-- The rows bound inside the `batchInsertPostgresColumns` loop, one
fresh UUID per iteration (`column.id || crypto.randomUUID()`). -/
def pgBatchRows (uuidAt : Nat → String) (k : Nat) : List ColumnData → List PgRow
  | [] => []
  | c :: cs =>
      { id := jsOrStr c.id (uuidAt k)
        column_name := c.columnName
        description := some c.description
        ndmo_classification := c.ndmoClassification
        reason_ndmo := c.reason_ndmo
        pii := c.pii
        phi := c.phi
        pfi := c.pfi
        psi := c.psi
        pci := c.pci } :: pgBatchRows uuidAt (k + 1) cs

/-- The inserts executed between `BEGIN` and `COMMIT`: the working state
of the transaction, `none` as soon as one statement fails. -/
def pgApplyInserts (db : List PgRow) : List PgRow → Option (List PgRow)
  | [] => some db
  | r :: rs =>
      match pgInsertRow db r with
      | none => none
      | some db2 => pgApplyInserts db2 rs

/-- `batchInsertPostgresColumns`: `BEGIN`, insert every row, `COMMIT`;
the `catch` block issues `ROLLBACK`, which discards the whole working
state, so the committed table is unchanged on any failure. -/
def batchInsertPostgresColumns (db : List PgRow) (uuidAt : Nat → String)
    (cols : List ColumnData) : List PgRow × ActionResult :=
  match pgApplyInserts db (pgBatchRows uuidAt 0 cols) with
  | some db2 =>
      (db2, { success := true, message := some "Batch insert completed successfully." })
  | none =>
      (db, { success := false
             message := some "Batch insert transaction failed and was rolled back." })

/-- `updatePostgresColumn`: set every mutable field of the rows whose
`id` matches; `RETURNING *` yields zero rows exactly when no id matched,
which the source reports as "Column not found for update.". -/
def updatePostgresColumn (db : List PgRow) (c : ColumnData) :
    List PgRow × SingleResult ColumnData :=
  if db.any (fun x => x.id == c.id) then
    (db.map (fun r =>
        if r.id == c.id then
          { r with description := some c.description
                   ndmo_classification := c.ndmoClassification
                   reason_ndmo := c.reason_ndmo
                   pii := c.pii
                   phi := c.phi
                   pfi := c.pfi
                   psi := c.psi
                   pci := c.pci }
        else r),
      { success := true, message := some "Column updated.", data := some c })
  else
    (db, { success := false, message := some "Column not found for update." })

/-- `deletePostgresColumn`: delete by id; zero affected rows is the
"not found" result. -/
def deletePostgresColumn (db : List PgRow) (id : String) :
    List PgRow × ActionResult :=
  if db.any (fun x => x.id == id) then
    (db.filter (fun x => !(x.id == id)),
      { success := true, message := some "Column deleted." })
  else
    (db, { success := false, message := some "Column not found for deletion." })

/-- `deleteAllPostgresColumns`: `TRUNCATE TABLE`. -/
def deleteAllPostgresColumns (_db : List PgRow) : List PgRow × ActionResult :=
  ([], { success := true, message := some "All columns deleted." })

/-- The SQL text of the `UPDATE` statement in `updatePostgresColumn`,
verbatim from the source. -/
def updatePostgresColumnSql : String :=
  "UPDATE column_classifications SET description = $2, ndmo_classification = $3, reason_ndmo=$4, pii = $5, phi = $6, pfi = $7, psi = $8, pci = $9, updated_at = NOW() WHERE id = $1 RETURNING *;"

/-! ## Oracle adapter (src/app/actions/dbActions.ts) -/

/-- Row comparison used to model `ORDER BY COLUMN_NAME ASC`. -/
def rowLeOra (a b : OraRow) : Prop := a.column_name ≤ b.column_name

instance : DecidableRel rowLeOra := fun a b =>
  inferInstanceAs (Decidable (a.column_name ≤ b.column_name))

instance : IsTotal OraRow rowLeOra :=
  ⟨fun a b => le_total a.column_name b.column_name⟩

instance : IsTrans OraRow rowLeOra :=
  ⟨fun _ _ _ h1 h2 => le_trans h1 h2⟩

/-- The flag conversion the Oracle insert paths apply:
`column.pii ? 1 : 0`. -/
def boolToOracle (b : Bool) : Nat := if b then 1 else 0

/-- `mapOracleRowToColumnData`: a stored flag reads back as `true`
exactly when the stored `NUMBER(1)` value strictly equals `1`
(`row.PII === 1`). -/
def mapOracleRowToColumnData (r : OraRow) : ColumnData :=
  { id := r.id
    columnName := r.column_name
    description := jsOrElse r.description ""
    ndmoClassification := r.ndmo_classification
    reason_ndmo := r.reason_ndmo
    pii := r.pii == 1
    phi := r.phi == 1
    pfi := r.pfi == 1
    psi := r.psi == 1
    pci := r.pci == 1 }

/-- `fetchOracleColumns`: select all rows ordered by `COLUMN_NAME`
ascending and map them through `mapOracleRowToColumnData`. -/
def fetchOracleColumns (db : List OraRow) : FetchResult ColumnData :=
  { success := true
    data := (List.insertionSort rowLeOra db).map mapOracleRowToColumnData }

/-- The bind object of `insertOracleColumn`:
`{ id: columnId, ...column, pii: column.pii ? 1 : 0, ... }`.
Because `...column` is spread after the generated `id`, a caller-present
`id` (even the empty string) overrides `columnId`; only an absent `id`
falls back to the fresh UUID. -/
def oraRowOfInput (uuid : String) (c : ColumnInput) : OraRow :=
  { id := match c.id with
          | some s => s
          | none => columnIdOf c.id uuid
    column_name := c.columnName
    description := some c.description
    ndmo_classification := c.ndmoClassification
    reason_ndmo := c.reason_ndmo
    pii := boolToOracle c.pii
    phi := boolToOracle c.phi
    pfi := boolToOracle c.pfi
    psi := boolToOracle c.psi
    pci := boolToOracle c.pci }

/-- One Oracle `INSERT` against the primary-key constraint on `id`
(`ORA-00001`, `errorNum === 1`, is the distinguished failure). -/
def oraInsertRow (db : List OraRow) (r : OraRow) : Option (List OraRow) :=
  if db.any (fun x => x.id == r.id) then none else some (db ++ [r])

/-- `insertOracleColumn`.  On success the returned record is
`{ ...column, id: columnId }`, built from `columnId` rather than from
the id actually bound into the statement. -/
def insertOracleColumn (db : List OraRow) (uuid : String) (c : ColumnInput) :
    List OraRow × SingleResult ColumnData :=
  let row := oraRowOfInput uuid c
  match oraInsertRow db row with
  | some db2 =>
      (db2, { success := true
              message := some "Column inserted into Oracle."
              data := some { id := columnIdOf c.id uuid
                             columnName := c.columnName
                             description := c.description
                             ndmoClassification := c.ndmoClassification
                             reason_ndmo := c.reason_ndmo
                             pii := c.pii
                             phi := c.phi
                             pfi := c.pfi
                             psi := c.psi
                             pci := c.pci } })
  | none =>
      (db, { success := false
             message := some ("Column \"" ++ c.columnName ++ "\" already exists.") })

/-- The bind rows built by `batchInsertOracleColumns`
(`id: c.id || crypto.randomUUID()`, flags as `c.pii ? 1 : 0`). -/
def oraBatchBinds (uuidAt : Nat → String) (k : Nat) : List ColumnData → List OraRow
  | [] => []
  | c :: cs =>
      { id := jsOrStr c.id (uuidAt k)
        column_name := c.columnName
        description := some c.description
        ndmo_classification := c.ndmoClassification
        reason_ndmo := c.reason_ndmo
        pii := boolToOracle c.pii
        phi := boolToOracle c.phi
        pfi := boolToOracle c.pfi
        psi := boolToOracle c.psi
        pci := boolToOracle c.pci } :: oraBatchBinds uuidAt (k + 1) cs

/-- The SQL text of the `UPDATE` statement in `updateOracleColumn`,
verbatim from the source template literal (note `reason_ndmo:reason_ndmo`
between the second and fourth assignments). -/
def updateOracleColumnSql : String :=
  "\n        UPDATE COLUMN_CLASSIFICATIONS SET description = :description, ndmo_classification = :ndmoClassification,reason_ndmo:reason_ndmo,\n        pii = :pii, phi = :phi, pfi = :pfi, psi = :psi, pci = :pci WHERE id = :id"

/-! ## A minimal well-formedness check for UPDATE set-clauses

`UPDATE t SET a = x, b = y, ... WHERE ...` requires every comma-separated
item between `SET` and `WHERE` to be an assignment; in particular every
item must contain the character `=`.  An item without `=` makes the
statement a syntax error, so the database rejects it and the adapter's
`catch` branch is taken on every call. -/

/-- The suffix after the first occurrence of `pat`, or `none`. -/
def dropThroughFirst (pat : List Char) : List Char → Option (List Char)
  | [] => if listIsPrefixOf pat [] then some ([].drop pat.length) else none
  | l@(_ :: rest) =>
      if listIsPrefixOf pat l then some (l.drop pat.length)
      else dropThroughFirst pat rest

/-- The prefix before the first occurrence of `pat` (all of it if `pat`
does not occur). -/
def takeUntilFirst (pat : List Char) : List Char → List Char
  | [] => []
  | l@(c :: rest) =>
      if listIsPrefixOf pat l then [] else c :: takeUntilFirst pat rest

/-- Split a character list on commas. -/
def splitOnComma : List Char → List (List Char)
  | [] => [[]]
  | c :: rest =>
      match splitOnComma rest with
      | [] => [[c]]
      | g :: gs => if c = ',' then [] :: g :: gs else (c :: g) :: gs

/-- The comma-separated items of the `SET` clause of an UPDATE
statement. -/
def sqlSetItems (sql : String) : List String :=
  match dropThroughFirst " SET ".data sql.data with
  | none => []
  | some rest => (splitOnComma (takeUntilFirst " WHERE ".data rest)).map String.mk

/-- Does a set-clause item contain an equals sign? -/
def itemHasEq (s : String) : Bool := s.data.any (fun c => c == '=')

/-! ## CSV import (`handleCsvUpload` in the page component)

A parsed CSV row (PapaParse with `header: true`) is a partial mapping
from header names to cell strings; an absent header yields `undefined`,
modelled as `none`. -/

/-- Cell lookup in one parsed CSV row. -/
def cellOf : List (String × String) → String → Option String
  | [], _ => none
  | (k, v) :: rest, key => if k = key then some v else cellOf rest key

/-- `toBoolean` from `handleCsvUpload`:
`["true","yes","1"].includes(String(value).trim().toLowerCase())`.
An absent cell (`String(undefined) = "undefined"`) is never in the
list, so it maps to `false`. -/
def toBoolean (v : Option String) : Bool :=
  match v with
  | none => false
  | some s => ["true", "yes", "1"].contains (jsToLower (jsTrim s))

/-- The per-row mapping of `handleCsvUpload`: rows without a recognised
column-name cell are dropped (`null`), everything else becomes a
`ColumnData` with permissive defaults. -/
def parseCsvRow (uuid : String) (row : List (String × String)) :
    Option ColumnData :=
  match firstTruthy [cellOf row "Column Name", cellOf row "column_name",
      cellOf row "columnName"] with
  | none => none
  | some columnName =>
      some { id := (firstTruthy [cellOf row "ID", cellOf row "id"]).getD uuid
             columnName := jsTrim columnName
             description :=
               (firstTruthy [cellOf row "Description",
                 cellOf row "description"]).getD ""
             ndmoClassification :=
               some ((firstTruthy [cellOf row "NDMO Classification",
                 cellOf row "ndmo_classification"]).getD "Public")
             reason_ndmo := cellOf row "reason_ndmo"
             pii := toBoolean (firstTruthy [cellOf row "PII", cellOf row "pii"])
             phi := toBoolean (firstTruthy [cellOf row "PHI", cellOf row "phi"])
             pfi := toBoolean (firstTruthy [cellOf row "PFI", cellOf row "pfi"])
             psi := toBoolean (firstTruthy [cellOf row "PSI", cellOf row "psi"])
             pci := toBoolean (firstTruthy [cellOf row "PCI", cellOf row "pci"]) }

/-! ## Classification requester (src/ai/flows/classify-column-flow.ts and
src/pages/api/classify-column.ts)

The HTTP transport and the JavaScript `JSON.parse` primitive are
parameters of the embedding; everything after the response arrives is
translated from the source. -/

/-- A JSON value, the shape `JSON.parse` can produce. -/
inductive Json where
  | null
  | bool (b : Bool)
  | num (n : Int)
  | str (s : String)
  | arr (xs : List Json)
  | obj (fields : List (String × Json))

/-- Field lookup in a parsed JSON object. -/
def jsonGet : List (String × Json) → String → Option Json
  | [], _ => none
  | (k, v) :: rest, key => if k = key then some v else jsonGet rest key

/-- Narrow a looked-up field to a string. -/
def asStr : Option Json → Option String
  | some (.str s) => some s
  | _ => none

/-- Narrow a looked-up field to a boolean. -/
def asBool : Option Json → Option Bool
  | some (.bool b) => some b
  | _ => none

/-- The validated output shape (`ClassifyColumnOutputSchema`). -/
structure ClassifyColumnOutput where
  description : String
  ndmoClassification : String
  pii : Bool
  phi : Bool
  pfi : Bool
  psi : Bool
  pci : Bool
  deriving DecidableEq, Repr

/-- `ClassifyColumnOutputSchema.safeParse`: an object with a string
`description`, an `ndmoClassification` drawn from the fixed enumeration,
and five boolean flags; anything else fails validation. -/
def zodSafeParse (j : Json) : Option ClassifyColumnOutput :=
  match j with
  | .obj fs =>
      match asStr (jsonGet fs "description"),
          asStr (jsonGet fs "ndmoClassification"),
          asBool (jsonGet fs "pii"), asBool (jsonGet fs "phi"),
          asBool (jsonGet fs "pfi"), asBool (jsonGet fs "psi"),
          asBool (jsonGet fs "pci") with
      | some d, some n, some p1, some p2, some p3, some p4, some p5 =>
          if ndmoClassificationOptions.contains n then
            some { description := d, ndmoClassification := n,
                   pii := p1, phi := p2, pfi := p3, psi := p4, pci := p5 }
          else none
      | _, _, _, _, _, _, _ => none
  | _ => none

/-- The part of the model-endpoint response the flow inspects:
`response.ok`, `response.status`, the raw body text used in the error
message, and `data.choices?.[0]?.message?.content`. -/
structure GroqResponse where
  ok : Bool
  status : Nat
  bodyText : String
  content : Option String
  deriving DecidableEq, Repr

/-- The fenced-code-block stripping in `classifyColumn`: trim, then
drop a leading triple-backtick fence (with or without the `json` tag)
together with the trailing fence via `slice(7, -3)` / `slice(3, -3)`. -/
def stripFence (content : String) : String :=
  let jsonText := jsTrim content
  if startsWithB jsonText "```json" then jsTrim (jsSliceNegEnd jsonText 7 3)
  else if startsWithB jsonText "```" then jsTrim (jsSliceNegEnd jsonText 3 3)
  else jsonText

/-- `classifyColumn`: each failure mode becomes a thrown `Error`,
modelled as `Except.error` carrying the error message (for the schema
failure the message is the fixed prefix of the source's message; the
serialized zod issue list appended after it is not modelled). -/
def classifyColumn (parseJson : String → Option Json) (_columnName : String)
    (resp : GroqResponse) : Except String ClassifyColumnOutput :=
  if resp.ok = false then
    .error ("Groq API error: " ++ toString resp.status ++ " " ++ resp.bodyText)
  else
    match resp.content with
    | none => .error "No content returned from Groq API"
    | some content =>
        if content = "" then .error "No content returned from Groq API"
        else
          let jsonText := stripFence content
          match parseJson jsonText with
          | none => .error ("Groq returned non-JSON output:\n" ++ content)
          | some parsed =>
              match zodSafeParse parsed with
              | none => .error "Invalid response format from Groq:"
              | some out => .ok out

/-- The response of the `classify-column` API route. -/
structure ClassifyApiResult where
  status : Nat
  success : Bool
  message : Option String := none
  output : Option ClassifyColumnOutput := none
  deriving DecidableEq, Repr

/-- The `classify-column` handler: validate the request, call
`classifyColumn`, and surface a thrown error as a 500 response with
`success:false` and no classification payload. -/
def classifyHandler (parseJson : String → Option Json) (columnName : String)
    (resp : GroqResponse) : ClassifyApiResult :=
  if columnName = "" then
    { status := 400, success := false
      message := some "columnName (string) is required in the request body." }
  else
    match classifyColumn parseJson columnName resp with
    | .ok cl => { status := 200, success := true, output := some cl }
    | .error msg =>
        { status := 500, success := false
          message := some ("Failed to classify column: " ++ msg) }

/-! ## Helper lemmas -/

theorem charToLower_ne_S (c : Char) : charToLower c ≠ 'S' := by
  intro h
  rw [charToLower] at h
  split at h
  · rename_i hc
    have hv : (c.toNat + 32).isValidChar := Or.inl (by omega)
    have ht : (Char.ofNat (c.toNat + 32)).toNat = c.toNat + 32 := by
      rw [Char.ofNat, dif_pos hv]; rfl
    have h83 := congrArg Char.toNat h
    rw [ht] at h83
    have : ('S').toNat = 83 := by decide
    omega
  · rename_i hc
    have h83 : c.toNat = 83 := by rw [h]; decide
    exact hc (by omega)

theorem head_mem_of_listContainsSub {c : Char} {cs l : List Char}
    (h : listContainsSub (c :: cs) l = true) : c ∈ l := by
  induction l with
  | nil => simp [listContainsSub, listIsPrefixOf] at h
  | cons x xs ih =>
      rw [listContainsSub, Bool.or_eq_true] at h
      rcases h with h | h
      · rw [listIsPrefixOf, Bool.and_eq_true] at h
        have : c = x := by simpa using h.1
        simp [this]
      · exact List.mem_cons_of_mem _ (ih h)

theorem not_S_mem_jsToLower (s : String) : 'S' ∉ (jsToLower s).data := by
  intro h
  simp only [jsToLower] at h
  obtain ⟨a, _, ha⟩ := List.mem_map.mp h
  exact charToLower_ne_S a ha

theorem jsIncludes_toLower_SID (url : String) :
    jsIncludes (jsToLower url) "SID" = false := by
  by_contra h
  rw [Bool.not_eq_false] at h
  exact not_S_mem_jsToLower url (head_mem_of_listContainsSub h)

theorem jsIncludes_toLower_SERVICE_NAME (url : String) :
    jsIncludes (jsToLower url) "SERVICE_NAME" = false := by
  by_contra h
  rw [Bool.not_eq_false] at h
  exact not_S_mem_jsToLower url (head_mem_of_listContainsSub h)

theorem detectDbType_sid_branch_dead (url : String) :
    (jsIncludes (jsToLower url) "@" &&
      (jsIncludes (jsToLower url) "SID" ||
        jsIncludes (jsToLower url) "SERVICE_NAME")) = false := by
  rw [jsIncludes_toLower_SID, jsIncludes_toLower_SERVICE_NAME]
  simp

/-! ## Claim theorems -/

/-- C1: the claim states that a connection string containing both `@`
and a case-insensitive `sid` or `service_name` is detected as oracle.
The server-side `detectDbType` (the copy the persistence router uses)
tests the upper-case literals `"SID"`/`"SERVICE_NAME"` against the
lower-cased URL, so the rule never fires: both of the claim's oracle
inputs are classified `unknown`. -/
theorem detectDbType_sid_rule_never_fires :
    detectDbType "user@host/sid" = DatabaseType.unknown ∧
    detectDbType "USER@HOST:1521/SID" = DatabaseType.unknown ∧
    detectDbType "scott/tiger@dbhost:1521?service_name=orcl" =
      DatabaseType.unknown := by
  decide

/-- C9 counterexample: the two copies of `detectDbType` disagree; the
client classifies this Easy-Connect style string as oracle, the server
as unknown. -/
theorem detectDbType_copies_disagree :
    detectDbTypeClient "scott@db.example.com/service_name" =
      DatabaseType.oracle ∧
    detectDbType "scott@db.example.com/service_name" =
      DatabaseType.unknown ∧
    detectDbType "scott@db.example.com/service_name" ≠
      detectDbTypeClient "scott@db.example.com/service_name" := by
  decide

/-- C9 (amended): the server copy reduces to the pure prefix rules (its
`sid`/`service_name` test is dead code), and the two copies agree on a
URL exactly when the URL is empty, its lower-cased form starts with
`postgres` or `oracle:`, or the client's `@`-and-`sid`/`service_name`
rule does not fire. -/
theorem detectDbType_server_vs_client (url : String) :
    detectDbType url =
      (if url = "" then DatabaseType.unknown
       else if startsWithB (jsToLower url) "postgres" then DatabaseType.postgres
       else if startsWithB (jsToLower url) "oracle:" then DatabaseType.oracle
       else if startsWithB (jsToLower url) "jdbc:hive2" then DatabaseType.hive
       else DatabaseType.unknown) ∧
    (detectDbType url = detectDbTypeClient url ↔
      (url = "" ∨ startsWithB (jsToLower url) "postgres" = true ∨
        startsWithB (jsToLower url) "oracle:" = true ∨
        (jsIncludes (jsToLower url) "@" &&
          (jsIncludes (jsToLower url) "sid" ||
            jsIncludes (jsToLower url) "service_name")) = false)) := by
  by_cases hemp : url = ""
  · simp [detectDbType, detectDbTypeClient, hemp]
  · cases hP : startsWithB (jsToLower url) "postgres" <;>
    cases hO : startsWithB (jsToLower url) "oracle:" <;>
    cases hH : startsWithB (jsToLower url) "jdbc:hive2" <;>
    cases hA : (jsIncludes (jsToLower url) "@" &&
        (jsIncludes (jsToLower url) "sid" ||
          jsIncludes (jsToLower url) "service_name")) <;>
    simp [detectDbType, detectDbTypeClient, hemp, hP, hO, hH, hA,
      detectDbType_sid_branch_dead url]

set_option maxRecDepth 8000 in
/-- C2 (code_bug evidence): the claim says update-by-id sets every
mutable field on either dialect.  The Postgres UPDATE's set-clause is a
list of well-formed assignments, but the Oracle UPDATE contains the item
`reason_ndmo:reason_ndmo` with no equals sign, which is a SQL syntax
error, so the Oracle database rejects the statement and every
`updateOracleColumn` call takes the catch branch ("Failed to update
column in Oracle.") instead of updating the row. -/
theorem updateOracleColumn_sql_set_clause_malformed :
    (sqlSetItems updateOracleColumnSql).contains "reason_ndmo:reason_ndmo" = true ∧
    (sqlSetItems updateOracleColumnSql).all itemHasEq = false ∧
    (sqlSetItems updatePostgresColumnSql).all itemHasEq = true := by
  decide

/-- C3: when the detected dialect is hive or unknown, each of the six
data operations' routers returns the default-branch failure — a
`success:false` envelope whose message mentions "not supported for
database type" — and never delegates to a dialect adapter (the only
place database I/O happens). -/
theorem unsupported_dialect_all_rejected (url : String) (c : ColumnInput)
    (cs : List ColumnData) (cd : ColumnData) (i : String)
    (h : detectDbType url = DatabaseType.hive ∨
      detectDbType url = DatabaseType.unknown) :
    ∀ op ∈ [fetchColumnDataLogic url, insertColumnDataLogic url c,
      batchInsertColumnDataLogic url cs, updateColumnDataLogic url cd,
      deleteColumnDataLogic url i, deleteAllColumnsLogic url],
      ∃ m, op = Routed.rejected { success := false, message := some m } ∧
        jsIncludes m "not supported for database type" = true := by
  intro op hop
  simp only [List.mem_cons, List.not_mem_nil, or_false] at hop
  rcases h with h | h <;>
    rcases hop with rfl | rfl | rfl | rfl | rfl | rfl <;>
    simp only [fetchColumnDataLogic, insertColumnDataLogic,
      batchInsertColumnDataLogic, updateColumnDataLogic,
      deleteColumnDataLogic, deleteAllColumnsLogic, h, notSupported] <;>
    exact ⟨_, rfl, by decide⟩

/-- C3 witness: a concrete hive-style URL exercises the theorem. -/
theorem unsupported_dialect_all_rejected_witness :
    (detectDbType "jdbc:hive2://h:10000/db" = DatabaseType.hive ∨
      detectDbType "jdbc:hive2://h:10000/db" = DatabaseType.unknown) ∧
    (∀ op ∈ [fetchColumnDataLogic "jdbc:hive2://h:10000/db",
        insertColumnDataLogic "jdbc:hive2://h:10000/db"
          { id := none, columnName := "email", description := "",
            ndmoClassification := none, reason_ndmo := none,
            pii := false, phi := false, pfi := false, psi := false, pci := false },
        batchInsertColumnDataLogic "jdbc:hive2://h:10000/db" [],
        updateColumnDataLogic "jdbc:hive2://h:10000/db"
          { id := "1", columnName := "email", description := "",
            ndmoClassification := none, reason_ndmo := none,
            pii := false, phi := false, pfi := false, psi := false, pci := false },
        deleteColumnDataLogic "jdbc:hive2://h:10000/db" "1",
        deleteAllColumnsLogic "jdbc:hive2://h:10000/db"],
      ∃ m, op = Routed.rejected { success := false, message := some m } ∧
        jsIncludes m "not supported for database type" = true) :=
  ⟨Or.inl (by decide),
    unsupported_dialect_all_rejected "jdbc:hive2://h:10000/db"
      { id := none, columnName := "email", description := "",
        ndmoClassification := none, reason_ndmo := none,
        pii := false, phi := false, pfi := false, psi := false, pci := false }
      []
      { id := "1", columnName := "email", description := "",
        ndmoClassification := none, reason_ndmo := none,
        pii := false, phi := false, pfi := false, psi := false, pci := false }
      "1" (Or.inl (by decide))⟩

theorem pgApplyInserts_eq_append :
    ∀ (rs : List PgRow) (db out : List PgRow),
      pgApplyInserts db rs = some out → out = db ++ rs := by
  intro rs
  induction rs with
  | nil =>
      intro db out h
      simp [pgApplyInserts] at h
      simp [h]
  | cons r rs ih =>
      intro db out h
      rw [pgApplyInserts] at h
      unfold pgInsertRow at h
      by_cases hc : db.any (fun x => x.id == r.id)
      · simp [hc] at h
      · simp only [hc, if_false, Bool.false_eq_true] at h
        have := ih (db ++ [r]) out h
        simpa [List.append_assoc] using this

/-- C4: Postgres batch-insert is atomic.  If any row of the batch fails
to insert (the transaction's working state aborts), the committed table
is exactly the original one and the result is the `success:false`
rollback report; if no row fails, the whole batch is appended and the
result reports success. -/
theorem batchInsertPostgres_atomic (db : List PgRow) (uuidAt : Nat → String)
    (cols : List ColumnData) :
    (pgApplyInserts db (pgBatchRows uuidAt 0 cols) = none →
      batchInsertPostgresColumns db uuidAt cols =
        (db, { success := false,
               message := some "Batch insert transaction failed and was rolled back." })) ∧
    (∀ db2, pgApplyInserts db (pgBatchRows uuidAt 0 cols) = some db2 →
      batchInsertPostgresColumns db uuidAt cols =
        (db2, { success := true,
                message := some "Batch insert completed successfully." }) ∧
      db2 = db ++ pgBatchRows uuidAt 0 cols) := by
  constructor
  · intro h
    unfold batchInsertPostgresColumns
    rw [h]
  · intro db2 h
    refine ⟨?_, pgApplyInserts_eq_append _ _ _ h⟩
    unfold batchInsertPostgresColumns
    rw [h]

/-- C4 witness: a two-row batch whose second row reuses an id already in
the table fails, and the committed table is unchanged. -/
theorem batchInsertPostgres_atomic_witness :
    pgApplyInserts
        [{ id := "a", column_name := "seed", description := none,
           ndmo_classification := none, reason_ndmo := none,
           pii := false, phi := false, pfi := false, psi := false, pci := false }]
        (pgBatchRows (fun _ => "fresh-uuid") 0
          [{ id := "b", columnName := "col1", description := "",
             ndmoClassification := none, reason_ndmo := none,
             pii := false, phi := false, pfi := false, psi := false, pci := false },
           { id := "a", columnName := "col2", description := "",
             ndmoClassification := none, reason_ndmo := none,
             pii := false, phi := false, pfi := false, psi := false, pci := false }]) =
      none ∧
    batchInsertPostgresColumns
        [{ id := "a", column_name := "seed", description := none,
           ndmo_classification := none, reason_ndmo := none,
           pii := false, phi := false, pfi := false, psi := false, pci := false }]
        (fun _ => "fresh-uuid")
        [{ id := "b", columnName := "col1", description := "",
           ndmoClassification := none, reason_ndmo := none,
           pii := false, phi := false, pfi := false, psi := false, pci := false },
         { id := "a", columnName := "col2", description := "",
           ndmoClassification := none, reason_ndmo := none,
           pii := false, phi := false, pfi := false, psi := false, pci := false }] =
      ([{ id := "a", column_name := "seed", description := none,
          ndmo_classification := none, reason_ndmo := none,
          pii := false, phi := false, pfi := false, psi := false, pci := false }],
        { success := false,
          message := some "Batch insert transaction failed and was rolled back." }) :=
  ⟨by decide,
    (batchInsertPostgres_atomic
      [{ id := "a", column_name := "seed", description := none,
         ndmo_classification := none, reason_ndmo := none,
         pii := false, phi := false, pfi := false, psi := false, pci := false }]
      (fun _ => "fresh-uuid")
      [{ id := "b", columnName := "col1", description := "",
         ndmoClassification := none, reason_ndmo := none,
         pii := false, phi := false, pfi := false, psi := false, pci := false },
       { id := "a", columnName := "col2", description := "",
         ndmoClassification := none, reason_ndmo := none,
         pii := false, phi := false, pfi := false, psi := false, pci := false }]).1
      (by decide)⟩

/-- C6: for both dialects fetch-all succeeds, returns exactly the
table's rows (as a permutation of the row-by-row mapping), the returned
records are ordered by `columnName` ascending, and an empty table yields
`success:true` with an empty list. -/
theorem fetch_all_sorted_and_complete (pgdb : List PgRow) (oradb : List OraRow) :
    (fetchPostgresColumns pgdb).success = true ∧
    (fetchPostgresColumns pgdb).data.Perm (pgdb.map pgMapRowToColumnData) ∧
    List.Sorted (· ≤ ·)
      ((fetchPostgresColumns pgdb).data.map ColumnData.columnName) ∧
    fetchPostgresColumns [] = { success := true, data := [] } ∧
    (fetchOracleColumns oradb).success = true ∧
    (fetchOracleColumns oradb).data.Perm (oradb.map mapOracleRowToColumnData) ∧
    List.Sorted (· ≤ ·)
      ((fetchOracleColumns oradb).data.map ColumnData.columnName) ∧
    fetchOracleColumns [] = { success := true, data := [] } := by
  refine ⟨rfl, ?_, ?_, rfl, rfl, ?_, ?_, rfl⟩
  · exact (List.perm_insertionSort rowLePg pgdb).map pgMapRowToColumnData
  · have hs : List.Sorted rowLePg (List.insertionSort rowLePg pgdb) :=
      List.sorted_insertionSort rowLePg pgdb
    show List.Sorted (· ≤ ·)
      (((List.insertionSort rowLePg pgdb).map pgMapRowToColumnData).map
        ColumnData.columnName)
    rw [List.map_map]
    exact List.Pairwise.map _ (fun a b h => h) hs
  · exact (List.perm_insertionSort rowLeOra oradb).map mapOracleRowToColumnData
  · have hs : List.Sorted rowLeOra (List.insertionSort rowLeOra oradb) :=
      List.sorted_insertionSort rowLeOra oradb
    show List.Sorted (· ≤ ·)
      (((List.insertionSort rowLeOra oradb).map mapOracleRowToColumnData).map
        ColumnData.columnName)
    rw [List.map_map]
    exact List.Pairwise.map _ (fun a b h => h) hs

/-- C5: the Oracle adapter writes a flag as 1/0 for true/false and reads
it back as true exactly when the stored value equals 1; hence inserting
a record and fetching the table again yields a record with identical
values for all five flags, for every combination of flags. -/
theorem oracle_flag_roundtrip (db : List OraRow) (uuid : String)
    (c : ColumnInput)
    (h : (insertOracleColumn db uuid c).2.success = true) :
    ((oraRowOfInput uuid c).pii = (if c.pii then 1 else 0) ∧
      (oraRowOfInput uuid c).phi = (if c.phi then 1 else 0) ∧
      (oraRowOfInput uuid c).pfi = (if c.pfi then 1 else 0) ∧
      (oraRowOfInput uuid c).psi = (if c.psi then 1 else 0) ∧
      (oraRowOfInput uuid c).pci = (if c.pci then 1 else 0)) ∧
    (∀ r : OraRow,
      ((mapOracleRowToColumnData r).pii = true ↔ r.pii = 1) ∧
      ((mapOracleRowToColumnData r).phi = true ↔ r.phi = 1) ∧
      ((mapOracleRowToColumnData r).pfi = true ↔ r.pfi = 1) ∧
      ((mapOracleRowToColumnData r).psi = true ↔ r.psi = 1) ∧
      ((mapOracleRowToColumnData r).pci = true ↔ r.pci = 1)) ∧
    (∃ rec ∈ (fetchOracleColumns (insertOracleColumn db uuid c).1).data,
      rec.pii = c.pii ∧ rec.phi = c.phi ∧ rec.pfi = c.pfi ∧
      rec.psi = c.psi ∧ rec.pci = c.pci) := by
  refine ⟨⟨rfl, rfl, rfl, rfl, rfl⟩, ?_, ?_⟩
  · intro r
    simp [mapOracleRowToColumnData]
  · have htbl : (insertOracleColumn db uuid c).1 = db ++ [oraRowOfInput uuid c] := by
      unfold insertOracleColumn at h ⊢
      unfold oraInsertRow at h ⊢
      by_cases hc : db.any (fun x => x.id == (oraRowOfInput uuid c).id)
      · simp [hc] at h
      · simp [hc]
    refine ⟨mapOracleRowToColumnData (oraRowOfInput uuid c), ?_, ?_, ?_, ?_, ?_, ?_⟩
    · show mapOracleRowToColumnData (oraRowOfInput uuid c) ∈
        (List.insertionSort rowLeOra (insertOracleColumn db uuid c).1).map
          mapOracleRowToColumnData
      refine List.mem_map_of_mem _ ?_
      rw [(List.perm_insertionSort rowLeOra _).mem_iff, htbl]
      exact List.mem_append_right _ (List.mem_singleton.mpr rfl)
    · show ((oraRowOfInput uuid c).pii == 1) = c.pii
      cases hb : c.pii <;> simp [oraRowOfInput, boolToOracle, hb]
    · show ((oraRowOfInput uuid c).phi == 1) = c.phi
      cases hb : c.phi <;> simp [oraRowOfInput, boolToOracle, hb]
    · show ((oraRowOfInput uuid c).pfi == 1) = c.pfi
      cases hb : c.pfi <;> simp [oraRowOfInput, boolToOracle, hb]
    · show ((oraRowOfInput uuid c).psi == 1) = c.psi
      cases hb : c.psi <;> simp [oraRowOfInput, boolToOracle, hb]
    · show ((oraRowOfInput uuid c).pci == 1) = c.pci
      cases hb : c.pci <;> simp [oraRowOfInput, boolToOracle, hb]

/-- C5 witness: a concrete record with a mixed flag combination inserted
into an empty Oracle table. -/
theorem oracle_flag_roundtrip_witness :
    (insertOracleColumn [] "c0ffee00-0000-4000-8000-000000000000"
        { id := none, columnName := "card_number", description := "card",
          ndmoClassification := some "Secret", reason_ndmo := none,
          pii := true, phi := false, pfi := true, psi := false,
          pci := true }).2.success = true ∧
    (∃ rec ∈ (fetchOracleColumns
        (insertOracleColumn [] "c0ffee00-0000-4000-8000-000000000000"
          { id := none, columnName := "card_number", description := "card",
            ndmoClassification := some "Secret", reason_ndmo := none,
            pii := true, phi := false, pfi := true, psi := false,
            pci := true }).1).data,
      rec.pii = true ∧ rec.phi = false ∧ rec.pfi = true ∧
      rec.psi = false ∧ rec.pci = true) :=
  ⟨by decide,
    (oracle_flag_roundtrip [] "c0ffee00-0000-4000-8000-000000000000"
      { id := none, columnName := "card_number", description := "card",
        ndmoClassification := some "Secret", reason_ndmo := none,
        pii := true, phi := false, pfi := true, psi := false, pci := true }
      (by decide)).2.2⟩

/-- C7: a CSV boolean cell coerces to true exactly when its trimmed,
lower-cased text is "true", "yes" or "1" (absence coerces to false), the
classification defaults to "Public" when the cell is absent or empty,
the description defaults to "", and the claim's sample row
`{"Column Name":"email","PII":"yes"}` imports to a record with
`pii:true`, classification "Public" and empty description. -/
theorem csv_boolean_coercion_and_defaults :
    (∀ s : String, toBoolean (some s) = true ↔
      jsToLower (jsTrim s) ∈ (["true", "yes", "1"] : List String)) ∧
    toBoolean none = false ∧
    (∀ uuid : String,
      parseCsvRow uuid [("Column Name", "email"), ("PII", "yes")] =
        some { id := uuid, columnName := "email", description := "",
               ndmoClassification := some "Public", reason_ndmo := none,
               pii := true, phi := false, pfi := false, psi := false,
               pci := false }) ∧
    (∀ uuid : String,
      parseCsvRow uuid
          [("Column Name", "email"), ("NDMO Classification", ""),
            ("PII", " TRUE ")] =
        some { id := uuid, columnName := "email", description := "",
               ndmoClassification := some "Public", reason_ndmo := none,
               pii := true, phi := false, pfi := false, psi := false,
               pci := false }) := by
  refine ⟨?_, rfl, fun uuid => rfl, fun uuid => rfl⟩
  intro s
  simp only [toBoolean]
  exact List.elem_iff

theorem zodSafeParse_classification_mem {j : Json} {out : ClassifyColumnOutput}
    (h : zodSafeParse j = some out) :
    out.ndmoClassification ∈ ndmoClassificationOptions := by
  cases j <;> simp only [zodSafeParse] at h <;>
    try exact Option.noConfusion h
  case obj fs =>
    split at h
    · rename_i d n p1 p2 p3 p4 p5 heq
      split at h
      · rename_i hc
        cases h
        exact List.elem_iff.mp hc
      · cases h
    · cases h

theorem classifyColumn_ok_from_zod {parseJson : String → Option Json}
    {name : String} {resp : GroqResponse} {cl : ClassifyColumnOutput}
    (hcl : classifyColumn parseJson name resp = .ok cl) :
    ∃ j, zodSafeParse j = some cl := by
  unfold classifyColumn at hcl
  by_cases hok : resp.ok = false
  · simp [hok] at hcl
  · rw [if_neg hok] at hcl
    cases hcont : resp.content with
    | none =>
        simp only [hcont] at hcl
        exact Except.noConfusion hcl
    | some c =>
        simp only [hcont] at hcl
        by_cases hce : c = ""
        · simp [hce] at hcl
        · rw [if_neg hce] at hcl
          cases hp : parseJson (stripFence c) with
          | none =>
              simp only [hp] at hcl
              exact Except.noConfusion hcl
          | some jj =>
              simp only [hp] at hcl
              cases hz : zodSafeParse jj with
              | none =>
                  simp only [hz] at hcl
                  exact Except.noConfusion hcl
              | some out =>
                  simp only [hz] at hcl
                  cases hcl
                  exact ⟨jj, hz⟩

/-- C8: every failure mode of the classification flow — non-success
HTTP status, absent or empty response content, non-parseable JSON after
fence stripping, and schema-invalid JSON — surfaces through the API
handler as a 500 `success:false` result with a mode-specific error
message and no classification payload; and whenever the handler reports
success, the payload's `ndmoClassification` lies in the fixed four-value
enumeration (the five flags are booleans by the validated output type). -/
theorem classify_failures_surfaced (parseJson : String → Option Json)
    (name : String) (resp : GroqResponse) (hname : name ≠ "") :
    (resp.ok = false →
      classifyHandler parseJson name resp =
        { status := 500, success := false,
          message := some ("Failed to classify column: " ++
            ("Groq API error: " ++ toString resp.status ++ " " ++ resp.bodyText)),
          output := none }) ∧
    (resp.ok = true → (resp.content = none ∨ resp.content = some "") →
      classifyHandler parseJson name resp =
        { status := 500, success := false,
          message :=
            some "Failed to classify column: No content returned from Groq API",
          output := none }) ∧
    (∀ c, resp.ok = true → resp.content = some c → c ≠ "" →
      parseJson (stripFence c) = none →
      classifyHandler parseJson name resp =
        { status := 500, success := false,
          message := some ("Failed to classify column: " ++
            ("Groq returned non-JSON output:\n" ++ c)),
          output := none }) ∧
    (∀ c j, resp.ok = true → resp.content = some c → c ≠ "" →
      parseJson (stripFence c) = some j → zodSafeParse j = none →
      classifyHandler parseJson name resp =
        { status := 500, success := false,
          message :=
            some "Failed to classify column: Invalid response format from Groq:",
          output := none }) ∧
    ((classifyHandler parseJson name resp).success = true →
      ∃ out, (classifyHandler parseJson name resp).output = some out ∧
        out.ndmoClassification ∈ ndmoClassificationOptions) := by
  refine ⟨?_, ?_, ?_, ?_, ?_⟩
  · intro hok
    simp [classifyHandler, classifyColumn, hname, hok]
  · intro hok hcont
    rcases hcont with hc | hc <;>
      simp [classifyHandler, classifyColumn, hname, hok, hc]
  · intro c hok hc hcne hp
    simp [classifyHandler, classifyColumn, hname, hok, hc, hcne, hp]
  · intro c j hok hc hcne hp hz
    simp [classifyHandler, classifyColumn, hname, hok, hc, hcne, hp, hz]
  · intro hs
    unfold classifyHandler at hs ⊢
    rw [if_neg hname] at hs ⊢
    cases hcl : classifyColumn parseJson name resp with
    | error m =>
        rw [hcl] at hs
        exact Bool.noConfusion hs
    | ok cl =>
        obtain ⟨j, hz⟩ := classifyColumn_ok_from_zod hcl
        exact ⟨cl, rfl, zodSafeParse_classification_mem hz⟩

/-- C8 witness: a concrete response whose body is not JSON exercises the
parse-failure mode with a parser that rejects it. -/
theorem classify_failures_surfaced_witness :
    ("card_number" : String) ≠ "" ∧
    classifyHandler (fun _ => none) "card_number"
        { ok := true, status := 200, bodyText := "", content := some "oops" } =
      { status := 500, success := false,
        message := some ("Failed to classify column: " ++
          ("Groq returned non-JSON output:\n" ++ "oops")),
        output := none } :=
  ⟨by decide,
    (classify_failures_surfaced (fun _ => none) "card_number"
      { ok := true, status := 200, bodyText := "", content := some "oops" }
      (by decide)).2.2.1 "oops" rfl rfl (by decide) rfl⟩

theorem pgBatchRows_id_ne_empty (uuidAt : Nat → String)
    (h : ∀ n, uuidAt n ≠ "") :
    ∀ (cols : List ColumnData) (k : Nat),
      ∀ r ∈ pgBatchRows uuidAt k cols, r.id ≠ "" := by
  intro cols
  induction cols with
  | nil => intro k r hr; simp [pgBatchRows] at hr
  | cons c cs ih =>
      intro k r hr
      rw [pgBatchRows] at hr
      rcases List.mem_cons.mp hr with rfl | hr
      · show jsOrStr c.id (uuidAt k) ≠ ""
        unfold jsOrStr
        split
        · exact h k
        · rename_i hc; exact hc
      · exact ih (k + 1) r hr

theorem oraBatchBinds_id_ne_empty (uuidAt : Nat → String)
    (h : ∀ n, uuidAt n ≠ "") :
    ∀ (cols : List ColumnData) (k : Nat),
      ∀ r ∈ oraBatchBinds uuidAt k cols, r.id ≠ "" := by
  intro cols
  induction cols with
  | nil => intro k r hr; simp [oraBatchBinds] at hr
  | cons c cs ih =>
      intro k r hr
      rw [oraBatchBinds] at hr
      rcases List.mem_cons.mp hr with rfl | hr
      · show jsOrStr c.id (uuidAt k) ≠ ""
        unfold jsOrStr
        split
        · exact h k
        · rename_i hc; exact hc
      · exact ih (k + 1) r hr

/-- C10 counterexample: Oracle insert-one with a caller-supplied empty
id.  Because `...column` is spread after the generated `id` in the bind
object, the empty string is what gets written, while the returned record
shows the generated UUID — so an empty-string id is stored, refuting
"never stored". -/
theorem insertOracleColumn_stores_empty_id :
    ((insertOracleColumn [] "3f8e8c1a-0000-4000-8000-000000000000"
        { id := some "", columnName := "email", description := "",
          ndmoClassification := none, reason_ndmo := none,
          pii := false, phi := false, pfi := false, psi := false,
          pci := false }).1.map OraRow.id) = [""] ∧
    ((insertOracleColumn [] "3f8e8c1a-0000-4000-8000-000000000000"
        { id := some "", columnName := "email", description := "",
          ndmoClassification := none, reason_ndmo := none,
          pii := false, phi := false, pfi := false, psi := false,
          pci := false }).2.data.map ColumnData.id) =
      some "3f8e8c1a-0000-4000-8000-000000000000" := by
  decide

/-- C10 (amended): Postgres insert-one, Postgres batch-insert and
Oracle batch-insert replace a missing or empty-string id with the fresh
UUID, so given non-empty UUIDs they never write an empty id; Oracle
insert-one instead binds the caller's id verbatim whenever it is
present — including the empty string — and uses the fresh UUID only
when the id is absent. -/
theorem insert_id_generation (uuid : String) (uuidAt : Nat → String)
    (c : ColumnInput) (cols : List ColumnData) (k : Nat)
    (hu : uuid ≠ "") (huA : ∀ n, uuidAt n ≠ "") :
    ((pgRowOfInput uuid c).id ≠ "" ∧
      ((c.id = none ∨ c.id = some "") → (pgRowOfInput uuid c).id = uuid)) ∧
    (∀ r ∈ pgBatchRows uuidAt k cols, r.id ≠ "") ∧
    (∀ r ∈ oraBatchBinds uuidAt k cols, r.id ≠ "") ∧
    ((oraRowOfInput uuid c).id =
      (match c.id with | some s => s | none => uuid)) ∧
    (c.id = some "" → (oraRowOfInput uuid c).id = "") := by
  refine ⟨⟨?_, ?_⟩, pgBatchRows_id_ne_empty uuidAt huA cols k,
    oraBatchBinds_id_ne_empty uuidAt huA cols k, ?_, ?_⟩
  · show columnIdOf c.id uuid ≠ ""
    cases hcid : c.id with
    | none => simpa [columnIdOf] using hu
    | some s =>
        by_cases hs : s = ""
        · simpa [columnIdOf, hs] using hu
        · simp [columnIdOf, hs]
  · intro hid
    rcases hid with hid | hid <;> simp [pgRowOfInput, columnIdOf, hid]
  · cases hcid : c.id with
    | none => simp [oraRowOfInput, columnIdOf, hcid]
    | some s => simp [oraRowOfInput, hcid]
  · intro hid
    simp [oraRowOfInput, hid]

/-- C10 witness: concrete non-empty UUIDs and an input with an
empty-string id exercise the amended theorem. -/
theorem insert_id_generation_witness :
    (("11111111-1111-4111-8111-111111111111" : String) ≠ "" ∧
      (∀ n : Nat, (fun _ : Nat => "22222222-2222-4222-8222-222222222222") n ≠ "")) ∧
    ((pgRowOfInput "11111111-1111-4111-8111-111111111111"
        { id := some "", columnName := "email", description := "",
          ndmoClassification := none, reason_ndmo := none,
          pii := false, phi := false, pfi := false, psi := false,
          pci := false }).id ≠ "" ∧
      ((({ id := some "", columnName := "email", description := "",
           ndmoClassification := none, reason_ndmo := none,
           pii := false, phi := false, pfi := false, psi := false,
           pci := false } : ColumnInput).id = none ∨
        ({ id := some "", columnName := "email", description := "",
           ndmoClassification := none, reason_ndmo := none,
           pii := false, phi := false, pfi := false, psi := false,
           pci := false } : ColumnInput).id = some "") →
        (pgRowOfInput "11111111-1111-4111-8111-111111111111"
          { id := some "", columnName := "email", description := "",
            ndmoClassification := none, reason_ndmo := none,
            pii := false, phi := false, pfi := false, psi := false,
            pci := false }).id = "11111111-1111-4111-8111-111111111111")) :=
  ⟨⟨by decide,
      fun _ => (by decide : ("22222222-2222-4222-8222-222222222222" : String) ≠ "")⟩,
    (insert_id_generation "11111111-1111-4111-8111-111111111111"
      (fun _ => "22222222-2222-4222-8222-222222222222")
      { id := some "", columnName := "email", description := "",
        ndmoClassification := none, reason_ndmo := none,
        pii := false, phi := false, pfi := false, psi := false, pci := false }
      [] 0 (by decide)
      (fun _ =>
        (by decide : ("22222222-2222-4222-8222-222222222222" : String) ≠ ""))).1⟩

end DataClassification
